import Mathlib

/-!
Verification development for the CS-Explorer-App data-filtering core.

The Python source (src/utils/functions.py and src/app.py) operates on pandas
DataFrames.  We embed a DataFrame shallowly as a list of rows together with
one Boolean per column recording whether that column is present in the table;
a cell holds an Option value, where `none` models a pandas NaN (missing or
non-numeric, so that to_numeric with errors="coerce" is the identity in the
model).  Operations that in pandas raise a KeyError on a missing column are
modelled in the Except monad: `Except.error` is a raised exception,
`Except.ok` a normally returned frame.  Numeric cells use Rat: none of the
verified properties depends on float rounding, only on which column a value
is taken from, on equality filtering and on counting.
-/

/-- One row of the raw parquet table, with the columns touched by the
filtering core.  Each cell is an Option: `none` models a pandas NaN.
`is_collab` is the boolean flag column distinguishing solo rows from
collaboration rows. -/
structure Row where
  year : Option Int
  chemical : Option String
  is_collab : Bool
  iso2c : Option String
  region : Option String
  country : Option String
  cc : Option String
  percentage : Option Rat
  value : Option Rat
  value_raw : Option Rat
  percentage_x : Option Rat
deriving DecidableEq, Repr

/-- A raw table: the row list plus one presence flag per column that
get_display_data or calculate_top_contributors may access.  A false flag
means the column is absent, so a pandas access of it raises KeyError. -/
structure RawTable where
  hasYear : Bool
  hasChemical : Bool
  hasIsCollab : Bool
  hasIso2c : Bool
  hasRegion : Bool
  hasCountry : Bool
  hasCc : Bool
  hasPercentage : Bool
  hasValue : Bool
  hasValueRaw : Bool
  hasPercentageX : Bool
  rows : List Row
deriving DecidableEq, Repr

/-- One entry of the country metadata frame passed as country_list; the
source selects the columns iso2c, country, cc, region from it.  iso2c is a
proper string because load_country_list drops rows with a missing code. -/
structure CountryMeta where
  iso2c : String
  country : Option String
  cc : Option String
  region : Option String
deriving DecidableEq, Repr

/-- One row of the frame returned by get_display_data.  It carries the raw
columns (which the source keeps) plus the columns the pipeline adds.  The
collaboration-only fields (partners, collab_size, collab_type,
plot_color_group) are filled with inert defaults in Individual mode, and
plot_color is none in Collaboration mode, mirroring columns the source
simply does not create on that branch. -/
structure ResRow where
  year : Option Int
  chemical : Option String
  is_collab : Bool
  iso2c : Option String
  region : Option String
  country : Option String
  cc : Option String
  percentage : Option Rat
  value : Option Rat
  value_raw : Option Rat
  percentage_x : Option Rat
  plot_group : Option String
  plot_color : Option String
  partners : List String
  collab_size : Nat
  collab_type : String
  plot_color_group : Option String
  total_percentage : Option Rat
deriving DecidableEq, Repr

/-- Pandas isin on a cell: a NaN entity key is in no selection
(functions.py line 124). -/
def isoIn (selected : List String) (iso : Option String) : Bool :=
  match iso with
  | none => false
  | some k => selected.contains k

/-- Helper for splitting a character list at the dash delimiter, carrying
the reversed current chunk. -/
def splitOnDashAux : List Char → List Char → List String
  | [], acc => [String.mk acc.reverse]
  | c :: cs, acc =>
    if c = '-' then String.mk acc.reverse :: splitOnDashAux cs []
    else splitOnDashAux cs (c :: acc)

/-- The Python str.split("-") used on entity keys: split the string at every
dash; an empty string yields one empty chunk, matching Python. -/
def splitOnDash (s : String) : List String := splitOnDashAux s.toList []

/-- The partner-matching predicate of the Collaboration branch
(functions.py lines 158-162): a NaN key never matches; otherwise the key is
split on the dash delimiter and the selected set must be a subset of the
partner set.  Set subset over Python sets is membership of every selected
code in the split list. -/
def has_all_partners (selected : List String) (iso : Option String) : Bool :=
  match iso with
  | none => false
  | some s => selected.all (fun c => (splitOnDash s).contains c)

/-- The fixed size-to-label mapping of functions.py lines 175-179; every
size other than 2, 3, 4 falls to the fillna default. -/
def collabTypeOf (n : Nat) : String :=
  if n = 2 then "Bilateral"
  else if n = 3 then "Trilateral"
  else if n = 4 then "4-country"
  else "5-country+"

/-- The left-merge lookup of functions.py lines 136-137: country_list is
first deduplicated keeping the first row per iso2c, then left-joined on
iso2c, so each row sees the first metadata entry whose code equals its own;
a NaN key joins nothing. -/
def metaLookup (metas : List CountryMeta) (iso : Option String) : Option CountryMeta :=
  match iso with
  | none => none
  | some k => metas.find? (fun m => m.iso2c == k)

/-- The metadata-enrichment step of the Individual branch (functions.py
lines 135-146).  With no country_list, the raw columns stand; with one, the
merge adds the metadata columns and the loop at lines 140-143 overwrites
country, cc and region with the metadata value, falling back to the raw
value (fillna) only where the raw column existed and the metadata cell is
NaN.  plot_group is the country column when it exists after the merge, else
the iso2c column; plot_color is the cc column when it exists after the
merge, else the literal default gray. -/
def mergeRow (t : RawTable) (cl : Option (List CountryMeta)) (r : Row) : ResRow :=
  match cl with
  | none =>
    { year := r.year, chemical := r.chemical, is_collab := r.is_collab, iso2c := r.iso2c
      region := r.region, country := r.country, cc := r.cc
      percentage := r.percentage, value := r.value, value_raw := r.value_raw
      percentage_x := r.percentage_x
      plot_group := if t.hasCountry then r.country else r.iso2c
      plot_color := if t.hasCc then r.cc else some "#808080"
      partners := [], collab_size := 0, collab_type := "", plot_color_group := none
      total_percentage := none }
  | some metas =>
    let m := metaLookup metas r.iso2c
    let country1 : Option String :=
      if t.hasCountry then (m.bind (fun x => x.country)).orElse (fun _ => r.country)
      else m.bind (fun x => x.country)
    let cc1 : Option String :=
      if t.hasCc then (m.bind (fun x => x.cc)).orElse (fun _ => r.cc)
      else m.bind (fun x => x.cc)
    let region1 : Option String :=
      if t.hasRegion then (m.bind (fun x => x.region)).orElse (fun _ => r.region)
      else m.bind (fun x => x.region)
    { year := r.year, chemical := r.chemical, is_collab := r.is_collab, iso2c := r.iso2c
      region := region1, country := country1, cc := cc1
      percentage := r.percentage, value := r.value, value_raw := r.value_raw
      percentage_x := r.percentage_x
      plot_group := country1
      plot_color := cc1
      partners := [], collab_size := 0, collab_type := "", plot_color_group := none
      total_percentage := none }

/-- The Collaboration-branch row construction (functions.py lines 170-182):
partners is the dash-split of the key (rows reaching this point have a
non-NaN key, the mask already rejected NaN), collab_size its length,
collab_type the mapped label, plot_group is the country column of the row
and plot_color_group the collaboration type. -/
def collabRow (r : Row) : ResRow :=
  let ps := splitOnDash (r.iso2c.getD "")
  { year := r.year, chemical := r.chemical, is_collab := r.is_collab, iso2c := r.iso2c
    region := r.region, country := r.country, cc := r.cc
    percentage := r.percentage, value := r.value, value_raw := r.value_raw
    percentage_x := r.percentage_x
    plot_group := r.country
    plot_color := none
    partners := ps, collab_size := ps.length, collab_type := collabTypeOf ps.length
    plot_color_group := some (collabTypeOf ps.length)
    total_percentage := none }

/-- Whether at least one candidate value column is present; when none is,
the dropna on total_percentage at functions.py line 201 raises KeyError. -/
def hasValueColumn (t : RawTable) : Bool :=
  t.hasPercentage || t.hasValue || t.hasValueRaw || t.hasPercentageX

/-- The probe order of functions.py lines 194-198: the first PRESENT column
among percentage, value, value_raw, percentage_x supplies total_percentage
(the loop breaks on column presence, not on the cell being non-null). -/
def pickValue (t : RawTable) (r : ResRow) : Option Rat :=
  if t.hasPercentage then r.percentage
  else if t.hasValue then r.value
  else if t.hasValueRaw then r.value_raw
  else r.percentage_x

/-- The total_percentage assignment applied to one result row. -/
def normTot (t : RawTable) (r : ResRow) : ResRow :=
  { r with total_percentage := pickValue t r }

/-- Column normalization, functions.py lines 187-201: year coercion is the
identity in the model (cells are already Option-valued), total_percentage is
filled from the first present candidate column, and rows with a NaN year or
NaN total_percentage are dropped.  With no candidate column present the
dropna subset names a missing column and pandas raises KeyError. -/
def normalizeCols (t : RawTable) (xs : List ResRow) : Except String (List ResRow) :=
  if hasValueColumn t then
    Except.ok ((xs.map (normTot t)).filter
      (fun r => r.year.isSome && r.total_percentage.isSome))
  else Except.error "KeyError: total_percentage"

/-- The year-range predicate of functions.py lines 105-108; a NaN year
compares false on both bounds. -/
def yearPasses (yr : Int × Int) (r : Row) : Bool :=
  match r.year with
  | none => false
  | some y => decide (yr.1 ≤ y) && decide (y ≤ yr.2)

/-- Rows surviving the year-range narrowing and the chemical-category
equality filter (functions.py lines 105-111); a NaN chemical cell never
equals the requested category. -/
def filteredRows (t : RawTable) (yr : Int × Int) (cat : String) : List Row :=
  (t.rows.filter (yearPasses yr)).filter (fun r => r.chemical == some cat)

/-- The Individual-branch row selection (functions.py lines 122-129): solo
rows whose key is in the selection, further restricted by raw-table region
equality when the region filter is active AND the raw table has a region
column; note that this restriction reads the RAW region column, before the
metadata merge. -/
def indivFiltered (t : RawTable) (sel : List String) (reg : String) (f2 : List Row) :
    List Row :=
  if reg != "All" && t.hasRegion then
    (f2.filter (fun r => r.is_collab == false && isoIn sel r.iso2c)).filter
      (fun r => r.region == some reg)
  else f2.filter (fun r => r.is_collab == false && isoIn sel r.iso2c)

/-- The Individual mode branch of get_display_data (functions.py lines
117-146 plus the shared normalization): empty selection gives an empty
frame; missing is_collab or iso2c columns raise; the surviving rows are
merged with metadata and normalized. -/
def individualBranch (t : RawTable) (sel : List String) (reg : String)
    (cl : Option (List CountryMeta)) (f2 : List Row) : Except String (List ResRow) :=
  if sel.isEmpty then Except.ok []
  else if !t.hasIsCollab then Except.error "KeyError: is_collab"
  else if !t.hasIso2c then Except.error "KeyError: iso2c"
  else if (indivFiltered t sel reg f2).isEmpty then Except.ok []
  else if ((indivFiltered t sel reg f2).map (mergeRow t cl)).isEmpty then
    Except.ok ((indivFiltered t sel reg f2).map (mergeRow t cl))
  else normalizeCols t ((indivFiltered t sel reg f2).map (mergeRow t cl))

/-- Rows surviving the Collaboration-branch selection: collaboration rows
whose partner set contains every selected code (functions.py lines 150-165). -/
def collabFiltered (sel : List String) (f2 : List Row) : List Row :=
  (f2.filter (fun r => r.is_collab == true)).filter
    (fun r => has_all_partners sel r.iso2c)

/-- The Collaboration mode branch of get_display_data (functions.py lines
148-182 plus the shared normalization).  The is_collab filter needs that
column; the mask needs iso2c once collaboration rows exist; building
plot_group reads the country column and raises when it is absent. -/
def collabBranch (t : RawTable) (sel : List String) (f2 : List Row) :
    Except String (List ResRow) :=
  if !t.hasIsCollab then Except.error "KeyError: is_collab"
  else if (f2.filter (fun r => r.is_collab == true)).isEmpty then Except.ok []
  else if !t.hasIso2c then Except.error "KeyError: iso2c"
  else if (collabFiltered sel f2).isEmpty then Except.ok []
  else if !t.hasCountry then Except.error "KeyError: country"
  else if ((collabFiltered sel f2).map collabRow).isEmpty then
    Except.ok ((collabFiltered sel f2).map collabRow)
  else normalizeCols t ((collabFiltered sel f2).map collabRow)

/-- Shallow embedding of get_display_data (functions.py lines 84-203).  The
guards mirror the source order: empty input frame, the Collaboration
early-exit on fewer than two selected codes, the year and chemical column
accesses (raising on absence), the emptiness check after the two narrowing
filters, then the mode dispatch on the literal mode strings with an empty
frame for an unrecognized mode. -/
def get_display_data (t : RawTable) (selected_isos : List String)
    (year_range : Int × Int) (chemical_category : String) (display_mode : String)
    (region_filter : String) (country_list : Option (List CountryMeta)) :
    Except String (List ResRow) :=
  if t.rows.isEmpty then Except.ok []
  else if display_mode == "find_collaborations" && decide (selected_isos.length < 2) then
    Except.ok []
  else if !t.hasYear then Except.error "KeyError: year"
  else if !t.hasChemical then Except.error "KeyError: chemical"
  else if (filteredRows t year_range chemical_category).isEmpty then Except.ok []
  else if display_mode == "individual" || display_mode == "compare_individuals" then
    individualBranch t selected_isos region_filter country_list
      (filteredRows t year_range chemical_category)
  else if display_mode == "find_collaborations" then
    collabBranch t selected_isos (filteredRows t year_range chemical_category)
  else Except.ok []

/-- Rows of a pipeline result, the empty list for a raised exception. -/
def resRows {α : Type} (e : Except String (List α)) : List α :=
  match e with
  | Except.ok rs => rs
  | Except.error _ => []

/-- Whether the pipeline returned normally. -/
def isOkRes {α : Type} (e : Except String (List α)) : Bool :=
  match e with
  | Except.ok _ => true
  | Except.error _ => false

/-- The cache-key normalization of app.py line 255: the selected codes are
sorted before being used as part of the lru_cache key. -/
def cacheKey (selected : List String) : List String :=
  List.insertionSort (fun a b => a ≤ b) selected

/-- Insertion of one element into a list sorted by a Boolean comparison;
used to model pandas sorting where no order-theoretic lemmas are needed. -/
def insertLe {α : Type} (le : α → α → Bool) (a : α) : List α → List α
  | [] => [a]
  | b :: bs => if le a b then a :: b :: bs else b :: insertLe le a bs

/-- Stable insertion sort by a Boolean comparison. -/
def sortLe {α : Type} (le : α → α → Bool) : List α → List α
  | [] => []
  | a :: as => insertLe le a (sortLe le as)

/-- Pandas mean of a column within a group: NaN cells are skipped and an
all-NaN group has a NaN mean. -/
def meanOpt (vs : List Rat) : Option Rat :=
  if vs.isEmpty then none else some (vs.sum / (vs.length : Rat))

/-- Pandas max of a column within a group, skipping NaN cells. -/
def maxOpt (vs : List Rat) : Option Rat :=
  match vs with
  | [] => none
  | v :: rest => some (rest.foldl (fun a b => max a b) v)

/-- Round-half-to-even at integer precision, as numpy rounding does. -/
def roundHalfEven (x : Rat) : Int :=
  if x - Rat.floor x < 1 / 2 then Rat.floor x
  else if 1 / 2 < x - Rat.floor x then Rat.floor x + 1
  else if Rat.floor x % 2 = 0 then Rat.floor x else Rat.floor x + 1

/-- The DataFrame.round(2) applied to one numeric cell. -/
def round2 (x : Rat) : Rat := ((roundHalfEven (x * 100) : Int) : Rat) / 100

/-- Count of distinct non-NaN years in a column, the nunique aggregation
used for the years_present column of create_summary_dataframe. -/
def nuniqueYears (ys : List (Option Int)) : Nat := (ys.filterMap id).dedup.length

/-- Lexicographic Boolean comparison on the (country, iso2c, chemical)
group keys, for the ascending key sort of pandas groupby. -/
def keyLe3 (a b : String × String × String) : Bool :=
  decide (a.1 < b.1) || (a.1 == b.1 &&
    (decide (a.2.1 < b.2.1) || (a.2.1 == b.2.1 && decide (a.2.2 ≤ b.2.2))))

/-- The group keys of create_summary_dataframe in Individual mode: distinct
(country, iso2c, chemical) triples with no NaN component (pandas groupby
drops rows with a NaN key), sorted ascending. -/
def indivSummaryKeys (data : List ResRow) : List (String × String × String) :=
  sortLe keyLe3 ((data.filterMap (fun r =>
    match r.country, r.iso2c, r.chemical with
    | some a, some b, some c => some (a, b, c)
    | _, _, _ => none)).dedup)

/-- The rows of one (country, iso2c, chemical) group. -/
def indivGroupRows (data : List ResRow) (k : String × String × String) : List ResRow :=
  data.filter (fun r =>
    r.country == some k.1 && r.iso2c == some k.2.1 && r.chemical == some k.2.2)

/-- One output row of the Individual-mode summary of create_summary_dataframe
(functions.py lines 1401-1417, identical in app.py lines 973-989). -/
structure IndivSummaryRow where
  country : String
  iso : String
  chemical : String
  avg_percentage : Option Rat
  max_percentage : Option Rat
  years_present : Nat
deriving DecidableEq, Repr

/-- The Individual-mode branch of create_summary_dataframe (functions.py
lines 1401-1417): group by (country, iso2c, chemical), aggregate the mean
and max of total_percentage and the count of DISTINCT years (nunique),
rounding the numeric aggregates to two decimals.  Only this branch is
modelled; the collaboration branch differs solely in its group keys. -/
def create_summary_dataframe_indiv (data : List ResRow) : List IndivSummaryRow :=
  (indivSummaryKeys data).map (fun k =>
    { country := k.1, iso := k.2.1, chemical := k.2.2
      avg_percentage :=
        (meanOpt ((indivGroupRows data k).filterMap (fun r => r.total_percentage))).map round2
      max_percentage :=
        (maxOpt ((indivGroupRows data k).filterMap (fun r => r.total_percentage))).map round2
      years_present := nuniqueYears ((indivGroupRows data k).map (fun r => r.year)) })

/-- Lexicographic Boolean comparison on 4-tuples of strings. -/
def keyLe4 (a b : String × String × String × String) : Bool :=
  decide (a.1 < b.1) || (a.1 == b.1 && keyLe3 a.2 b.2)

/-- The group keys of the legacy create_summary_table in Individual mode:
distinct (iso2c, country, region, chemical) tuples with no NaN component,
sorted ascending. -/
def tableSummaryKeys (data : List ResRow) : List (String × String × String × String) :=
  sortLe keyLe4 ((data.filterMap (fun r =>
    match r.iso2c, r.country, r.region, r.chemical with
    | some a, some b, some c, some d => some (a, b, c, d)
    | _, _, _, _ => none)).dedup)

/-- The rows of one (iso2c, country, region, chemical) group. -/
def tableGroupRows (data : List ResRow) (k : String × String × String × String) :
    List ResRow :=
  data.filter (fun r =>
    r.iso2c == some k.1 && r.country == some k.2.1 && r.region == some k.2.2.1 &&
      r.chemical == some k.2.2.2)

/-- One output row of the Individual-mode branch of the legacy
create_summary_table (functions.py lines 553-567). -/
structure TableSummaryRow where
  iso : String
  country : String
  region : String
  chemical : String
  avg_percentage : Option Rat
  max_percentage : Option Rat
  years_present : Nat
deriving DecidableEq, Repr

/-- The Individual-mode branch of the legacy create_summary_table
(functions.py lines 553-567): group by (iso2c, country, region, chemical)
and aggregate mean, max and COUNT of total_percentage; the count aggregation
counts non-null cells, i.e. rows, and its column is then labeled
"Years Present" at line 566. -/
def create_summary_table_indiv (data : List ResRow) : List TableSummaryRow :=
  (tableSummaryKeys data).map (fun k =>
    { iso := k.1, country := k.2.1, region := k.2.2.1, chemical := k.2.2.2
      avg_percentage :=
        (meanOpt ((tableGroupRows data k).filterMap (fun r => r.total_percentage))).map round2
      max_percentage :=
        (maxOpt ((tableGroupRows data k).filterMap (fun r => r.total_percentage))).map round2
      years_present := ((tableGroupRows data k).filterMap (fun r => r.total_percentage)).length })

/-- A raw record as seen by the country-list builders: the columns of the
deduplication subset that the region claim touches (the lat, lng and cc
columns of the source subset are omitted; omitting them can only merge
rows that agree on all modelled columns, which does not affect how a
missing region is handled). -/
structure CRow where
  country : Option String
  iso2c : Option String
  region : Option String
  is_collab : Bool
deriving DecidableEq, Repr

/-- drop_duplicates with keep="first": retain the first occurrence of each
record. -/
def dropDuplicates : List CRow → List CRow → List CRow
  | [], _ => []
  | a :: as, seen =>
    if seen.any (fun b => b == a) then dropDuplicates as seen
    else a :: dropDuplicates as (a :: seen)

/-- The shared head of both country-list builders: keep solo rows,
deduplicate, drop records with a NaN or empty country or iso2c. -/
def countryListBase (records : List CRow) : List CRow :=
  ((dropDuplicates (records.filter (fun r => r.is_collab == false)) []).filter
    (fun r => r.country.isSome && r.iso2c.isSome)).filter
    (fun r => r.country != some "" && r.iso2c != some "")

/-- Sort a country list by display name ascending, the final step of both
builders. -/
def sortByCountry (l : List CRow) : List CRow :=
  sortLe (fun a b => decide ((a.country.getD "") ≤ (b.country.getD ""))) l

/-- The country_list construction inside load_country_data (functions.py
lines 32-42).  Line 41 reads: country_list["region"] = country_list["region"]
under the comment "Handle missing regions" - a self-assignment that leaves a
missing region missing. -/
def load_country_data_country_list (records : List CRow) : List CRow :=
  sortByCountry (countryListBase records)

/-- The country-list builder of app.py lines 49-61, which additionally runs
fillna to replace a missing region with the literal "Other" before
sorting. -/
def load_country_list (records : List CRow) : List CRow :=
  sortByCountry ((countryListBase records).map
    (fun r => { r with region := some (r.region.getD "Other") }))

/-- The filtered base frame of calculate_top_contributors (functions.py
lines 613-627): solo rows, the year-range filter unless ignored, the
chemical filter ONLY when the requested category is not the literal "All",
and the region filter only when the region is not "All". -/
def topContribQuery (t : RawTable) (year_range : Int × Int)
    (chemical_category : String) (region_filter : String)
    (ignore_year_filter : Bool) : List Row :=
  let q0 := t.rows.filter (fun r => r.is_collab == false)
  let q1 := if ignore_year_filter then q0 else q0.filter (yearPasses year_range)
  let q2 := if chemical_category != "All" then
      q1.filter (fun r => r.chemical == some chemical_category) else q1
  if region_filter != "All" then
    q2.filter (fun r => r.region == some region_filter) else q2

/-- One output row of calculate_top_contributors. -/
structure TopContribRow where
  rank : Nat
  iso2c : String
  country : Option String
  avg_percentage : Option Rat
deriving DecidableEq, Repr

/-- Comparison for sort_values(ascending=False) over the group means: larger
means first, NaN means last. -/
def descMeanLe (a b : String × Option Rat) : Bool :=
  match a.2, b.2 with
  | some x, some y => decide (y ≤ x)
  | some _, none => true
  | none, some _ => false
  | none, none => true

/-- Shallow embedding of calculate_top_contributors (functions.py lines
589-651).  The leading guards model the column accesses of the source in
order (is_collab, then year when the year filter is active, chemical when
the category is not "All", region when the region filter is active, then
the iso2c and percentage accesses of the groupby); the groupby drops NaN
keys and sorts them ascending, the means are sorted descending with NaN
last, the head is taken and ranks are assigned 1..n; the final column
selection reads the country column produced by the metadata merge, which
raises when country_list is None.  The source sorts ties with a non-stable
quicksort; the model sorts stably, and no verified property depends on tie
order. -/
def calculate_top_contributors (t : RawTable) (year_range : Int × Int)
    (chemical_category : String) (region_filter : String)
    (country_list : Option (List CountryMeta)) (top_n : Nat)
    (ignore_year_filter : Bool) : Except String (List TopContribRow) :=
  if !t.hasIsCollab then Except.error "KeyError: is_collab"
  else if !ignore_year_filter && !t.hasYear then Except.error "KeyError: year"
  else if chemical_category != "All" && !t.hasChemical then
    Except.error "KeyError: chemical"
  else if region_filter != "All" && !t.hasRegion then Except.error "KeyError: region"
  else if !t.hasIso2c then Except.error "KeyError: iso2c"
  else if !t.hasPercentage then Except.error "KeyError: percentage"
  else
    match country_list with
    | none => Except.error "KeyError: country"
    | some metas =>
      let q := topContribQuery t year_range chemical_category region_filter
        ignore_year_filter
      let keys := sortLe (fun a b => decide (a ≤ b)) ((q.filterMap (fun r => r.iso2c)).dedup)
      let grouped := keys.map (fun k =>
        (k, meanOpt ((q.filter (fun r => r.iso2c == some k)).filterMap
          (fun r => r.percentage))))
      let top := (sortLe descMeanLe grouped).take top_n
      Except.ok (top.enum.map (fun p =>
        { rank := p.1 + 1, iso2c := p.2.1
          country := (metas.find? (fun m => m.iso2c == p.2.1)).bind (fun m => m.country)
          avg_percentage := p.2.2 }))

/-- Modelled from the spec (section 4.3 step 4): the region of a row as the
spec reads it for the region restriction, namely the region of the joined
Country Directory entry. -/
def dirRegion (cl : Option (List CountryMeta)) (r : Row) : Option String :=
  match cl with
  | none => none
  | some metas => (metaLookup metas r.iso2c).bind (fun m => m.region)

/-- Modelled from the spec: the Individual-branch row selection as the spec
words it, restricting by the JOINED directory region rather than the raw
column when the region filter is active. -/
def indivFilteredDirSpec (sel : List String) (reg : String)
    (cl : Option (List CountryMeta)) (f2 : List Row) : List Row :=
  if reg != "All" then
    (f2.filter (fun r => r.is_collab == false && isoIn sel r.iso2c)).filter
      (fun r => dirRegion cl r == some reg)
  else f2.filter (fun r => r.is_collab == false && isoIn sel r.iso2c)

/-- Modelled from the spec: the Individual branch with the spec reading of
the region restriction; all other steps as in the source. -/
def individualBranchDirSpec (t : RawTable) (sel : List String) (reg : String)
    (cl : Option (List CountryMeta)) (f2 : List Row) : Except String (List ResRow) :=
  if sel.isEmpty then Except.ok []
  else if !t.hasIsCollab then Except.error "KeyError: is_collab"
  else if !t.hasIso2c then Except.error "KeyError: iso2c"
  else if (indivFilteredDirSpec sel reg cl f2).isEmpty then Except.ok []
  else normalizeCols t ((indivFilteredDirSpec sel reg cl f2).map (mergeRow t cl))

/-- Modelled from the spec: get_display_data with the spec reading of the
Individual-mode region restriction, for comparison against the source
behaviour. -/
def get_display_data_dirSpec (t : RawTable) (selected_isos : List String)
    (year_range : Int × Int) (chemical_category : String) (display_mode : String)
    (region_filter : String) (country_list : Option (List CountryMeta)) :
    Except String (List ResRow) :=
  if t.rows.isEmpty then Except.ok []
  else if display_mode == "find_collaborations" && decide (selected_isos.length < 2) then
    Except.ok []
  else if !t.hasYear then Except.error "KeyError: year"
  else if !t.hasChemical then Except.error "KeyError: chemical"
  else if (filteredRows t year_range chemical_category).isEmpty then Except.ok []
  else if display_mode == "individual" || display_mode == "compare_individuals" then
    individualBranchDirSpec t selected_isos region_filter country_list
      (filteredRows t year_range chemical_category)
  else if display_mode == "find_collaborations" then
    collabBranch t selected_isos (filteredRows t year_range chemical_category)
  else Except.ok []

/-- A solo raw row with every cell populated. -/
def mkSolo (iso ch : String) (y : Int) (p : Rat) (rg ct c : String) : Row :=
  { year := some y, chemical := some ch, is_collab := false, iso2c := some iso
    region := some rg, country := some ct, cc := some c
    percentage := some p, value := none, value_raw := none, percentage_x := none }

/-- A collaboration raw row keyed by a dash-joined code string. -/
def mkCollab (key ch : String) (y : Int) (p : Rat) (ct : String) : Row :=
  { year := some y, chemical := some ch, is_collab := true, iso2c := some key
    region := none, country := some ct, cc := none
    percentage := some p, value := none, value_raw := none, percentage_x := none }

/-- A table with the full expected schema. -/
def fullTable (rows : List Row) : RawTable :=
  { hasYear := true, hasChemical := true, hasIsCollab := true, hasIso2c := true
    hasRegion := true, hasCountry := true, hasCc := true
    hasPercentage := true, hasValue := true, hasValueRaw := true, hasPercentageX := true
    rows := rows }

/-- Concrete collaboration table for the partner-subset scenario: keys
CN-US, CN-US-JP and CN-JP, as in spec property P3. -/
def t2 : RawTable := fullTable
  [mkCollab "CN-US" "Organic" 2000 1 "CN-US",
   mkCollab "CN-US-JP" "Organic" 2000 2 "CN-US-JP",
   mkCollab "CN-JP" "Organic" 2000 3 "CN-JP"]

/-- A non-empty table whose four candidate value columns are all absent. -/
def t1 : RawTable :=
  { hasYear := true, hasChemical := true, hasIsCollab := true, hasIso2c := true
    hasRegion := true, hasCountry := true, hasCc := true
    hasPercentage := false, hasValue := false, hasValueRaw := false
    hasPercentageX := false
    rows := [mkSolo "CN" "Organic" 2000 5 "Asia" "China" "#f00"] }

/-- A full-schema table with one solo row whose percentage and value cells
differ (5 versus 3). -/
def t7 : RawTable := fullTable
  [{ year := some 2000, chemical := some "Organic", is_collab := false
     iso2c := some "CN", region := some "Asia", country := some "China"
     cc := some "#f00", percentage := some 5, value := some 3
     value_raw := none, percentage_x := none }]

/-- A solo table whose raw region ("Asia") differs from the directory
region of the same country ("Europe" in cl10). -/
def t10 : RawTable := fullTable [mkSolo "CN" "Organic" 2000 5 "Asia" "China" "#f00"]

/-- A directory entry whose region disagrees with the raw table of t10. -/
def cl10 : List CountryMeta :=
  [{ iso2c := "CN", country := some "China", cc := some "#f00", region := some "Europe" }]

/-- A solo table with a single Organic row, for the top-contributors
wildcard check. -/
def t3 : RawTable := fullTable [mkSolo "CN" "Organic" 2000 5 "Asia" "China" "#f00"]

/-- Directory for the top-contributors check. -/
def cl3 : List CountryMeta :=
  [{ iso2c := "CN", country := some "China", cc := some "#f00", region := some "Asia" }]

/-- A collaboration table whose country cell is a display label distinct
from the dash-joined entity key. -/
def t4 : RawTable := fullTable [mkCollab "CN-US" "Organic" 2000 1 "China-US Collaboration"]

/-- A pipeline-result row for a solo country, as get_display_data emits it. -/
def mkIndivRes (iso nm rg ch : String) (y : Int) (tp : Rat) : ResRow :=
  { year := some y, chemical := some ch, is_collab := false, iso2c := some iso
    region := some rg, country := some nm, cc := some "#f00"
    percentage := some tp, value := none, value_raw := none, percentage_x := none
    plot_group := some nm, plot_color := some "#f00"
    partners := [], collab_size := 0, collab_type := "", plot_color_group := none
    total_percentage := some tp }

/-- The duplicate-year data of spec property P6: two identical rows for
year 2000 and one row for year 2001, all one country and category. -/
def c5data : List ResRow :=
  [mkIndivRes "CN" "China" "Asia" "Organic" 2000 5,
   mkIndivRes "CN" "China" "Asia" "Organic" 2000 5,
   mkIndivRes "CN" "China" "Asia" "Organic" 2001 5]

/-- A solo record whose region is missing. -/
def c6row : CRow :=
  { country := some "China", iso2c := some "CN", region := none, is_collab := false }

theorem mem_of_normalizeCols (t : RawTable) (xs rs : List ResRow) (r : ResRow)
    (h : normalizeCols t xs = Except.ok rs) (hr : r ∈ rs) :
    ∃ r1, r1 ∈ xs ∧ r = normTot t r1 := by
  unfold normalizeCols at h
  split at h
  · injection h with h'
    subst h'
    rcases List.mem_filter.mp hr with ⟨hm, _⟩
    rcases List.mem_map.mp hm with ⟨r1, h1, h2⟩
    exact ⟨r1, h1, h2.symm⟩
  · exact Except.noConfusion h

theorem mem_indivFiltered (t : RawTable) (sel : List String) (reg : String)
    (f2 : List Row) (r0 : Row) (h : r0 ∈ indivFiltered t sel reg f2) :
    r0 ∈ f2 ∧ r0.is_collab = false ∧ isoIn sel r0.iso2c = true ∧
      ((reg != "All" && t.hasRegion) = true → r0.region = some reg) := by
  unfold indivFiltered at h
  split at h
  · rename_i hc
    rcases List.mem_filter.mp h with ⟨h1, h2⟩
    rcases List.mem_filter.mp h1 with ⟨h3, h4⟩
    rw [Bool.and_eq_true] at h4
    exact ⟨h3, by simpa using h4.1, h4.2, fun _ => by simpa using h2⟩
  · rename_i hc
    rcases List.mem_filter.mp h with ⟨h3, h4⟩
    rw [Bool.and_eq_true] at h4
    exact ⟨h3, by simpa using h4.1, h4.2, fun hcc => absurd hcc hc⟩

theorem mem_of_individualBranch (t : RawTable) (sel : List String) (reg : String)
    (cl : Option (List CountryMeta)) (f2 : List Row) (rs : List ResRow) (r : ResRow)
    (h : individualBranch t sel reg cl f2 = Except.ok rs) (hr : r ∈ rs) :
    ∃ r0, r0 ∈ f2 ∧ r0.is_collab = false ∧ isoIn sel r0.iso2c = true ∧
      ((reg != "All" && t.hasRegion) = true → r0.region = some reg) ∧
      r = normTot t (mergeRow t cl r0) := by
  unfold individualBranch at h
  split at h
  · injection h with h'; subst h'; cases hr
  · split at h
    · exact Except.noConfusion h
    · split at h
      · exact Except.noConfusion h
      · split at h
        · injection h with h'; subst h'; cases hr
        · split at h
          · rename_i hmap
            injection h with h'
            subst h'
            rw [List.isEmpty_iff] at hmap
            rw [hmap] at hr
            cases hr
          · rcases mem_of_normalizeCols _ _ _ _ h hr with ⟨r1, hm, he⟩
            rcases List.mem_map.mp hm with ⟨r0, h0, hmr⟩
            rcases mem_indivFiltered _ _ _ _ _ h0 with ⟨ha, hb, hc, hd⟩
            exact ⟨r0, ha, hb, hc, hd, by rw [he, hmr]⟩

theorem mem_collabFiltered (sel : List String) (f2 : List Row) (r0 : Row)
    (h : r0 ∈ collabFiltered sel f2) :
    r0 ∈ f2 ∧ r0.is_collab = true ∧ has_all_partners sel r0.iso2c = true := by
  unfold collabFiltered at h
  rcases List.mem_filter.mp h with ⟨h1, h2⟩
  rcases List.mem_filter.mp h1 with ⟨h3, h4⟩
  exact ⟨h3, by simpa using h4, h2⟩

theorem mem_of_collabBranch (t : RawTable) (sel : List String) (f2 : List Row)
    (rs : List ResRow) (r : ResRow)
    (h : collabBranch t sel f2 = Except.ok rs) (hr : r ∈ rs) :
    ∃ r0, r0 ∈ f2 ∧ r0.is_collab = true ∧ has_all_partners sel r0.iso2c = true ∧
      r = normTot t (collabRow r0) := by
  unfold collabBranch at h
  split at h
  · exact Except.noConfusion h
  · split at h
    · injection h with h'; subst h'; cases hr
    · split at h
      · exact Except.noConfusion h
      · split at h
        · injection h with h'; subst h'; cases hr
        · split at h
          · exact Except.noConfusion h
          · split at h
            · rename_i hmap
              injection h with h'
              subst h'
              rw [List.isEmpty_iff] at hmap
              rw [hmap] at hr
              cases hr
            · rcases mem_of_normalizeCols _ _ _ _ h hr with ⟨r1, hm, he⟩
              rcases List.mem_map.mp hm with ⟨r0, h0, hmr⟩
              rcases mem_collabFiltered _ _ _ h0 with ⟨ha, hb, hc⟩
              exact ⟨r0, ha, hb, hc, by rw [he, hmr]⟩

theorem mem_filteredRows (t : RawTable) (yr : Int × Int) (cat : String) (r0 : Row)
    (h : r0 ∈ filteredRows t yr cat) : r0 ∈ t.rows ∧ r0.chemical = some cat := by
  unfold filteredRows at h
  rcases List.mem_filter.mp h with ⟨h1, h2⟩
  rcases List.mem_filter.mp h1 with ⟨h3, _⟩
  exact ⟨h3, by simpa using h2⟩

theorem mem_of_get_display_data (t : RawTable) (sel : List String) (yr : Int × Int)
    (cat mode reg : String) (cl : Option (List CountryMeta)) (rs : List ResRow)
    (r : ResRow)
    (h : get_display_data t sel yr cat mode reg cl = Except.ok rs) (hr : r ∈ rs) :
    ∃ r0, r0 ∈ t.rows ∧ r0.chemical = some cat ∧
      (((mode = "individual" ∨ mode = "compare_individuals") ∧ r0.is_collab = false ∧
          isoIn sel r0.iso2c = true ∧
          ((reg != "All" && t.hasRegion) = true → r0.region = some reg) ∧
          r = normTot t (mergeRow t cl r0)) ∨
        (mode = "find_collaborations" ∧ r0.is_collab = true ∧
          has_all_partners sel r0.iso2c = true ∧ r = normTot t (collabRow r0))) := by
  unfold get_display_data at h
  split at h
  · injection h with h'; subst h'; cases hr
  · split at h
    · injection h with h'; subst h'; cases hr
    · split at h
      · exact Except.noConfusion h
      · split at h
        · exact Except.noConfusion h
        · split at h
          · injection h with h'; subst h'; cases hr
          · split at h
            · rename_i hmode
              rcases mem_of_individualBranch _ _ _ _ _ _ _ h hr with
                ⟨r0, hf, hb, hc, hd, he⟩
              rcases mem_filteredRows _ _ _ _ hf with ⟨hrow, hcat⟩
              rw [Bool.or_eq_true, beq_iff_eq, beq_iff_eq] at hmode
              exact ⟨r0, hrow, hcat, Or.inl ⟨hmode, hb, hc, hd, he⟩⟩
            · split at h
              · rename_i hmode
                rcases mem_of_collabBranch _ _ _ _ _ h hr with ⟨r0, hf, hb, hc, he⟩
                rcases mem_filteredRows _ _ _ _ hf with ⟨hrow, hcat⟩
                rw [beq_iff_eq] at hmode
                exact ⟨r0, hrow, hcat, Or.inr ⟨hmode, hb, hc, he⟩⟩
              · injection h with h'; subst h'; cases hr

theorem mergeRow_chemical (t : RawTable) (cl : Option (List CountryMeta)) (r0 : Row) :
    (mergeRow t cl r0).chemical = r0.chemical := by cases cl <;> rfl

theorem mergeRow_iso2c (t : RawTable) (cl : Option (List CountryMeta)) (r0 : Row) :
    (mergeRow t cl r0).iso2c = r0.iso2c := by cases cl <;> rfl

theorem mergeRow_year (t : RawTable) (cl : Option (List CountryMeta)) (r0 : Row) :
    (mergeRow t cl r0).year = r0.year := by cases cl <;> rfl

theorem mergeRow_percentage (t : RawTable) (cl : Option (List CountryMeta)) (r0 : Row) :
    (mergeRow t cl r0).percentage = r0.percentage := by cases cl <;> rfl

theorem normalizeCols_isOk (t : RawTable) (xs : List ResRow)
    (hv : hasValueColumn t = true) : isOkRes (normalizeCols t xs) = true := by
  simp [normalizeCols, isOkRes, hv]

theorem individualBranch_isOk (t : RawTable) (sel : List String) (reg : String)
    (cl : Option (List CountryMeta)) (f2 : List Row)
    (h1 : t.hasIsCollab = true) (h2 : t.hasIso2c = true)
    (hv : hasValueColumn t = true) :
    isOkRes (individualBranch t sel reg cl f2) = true := by
  unfold individualBranch
  split
  · rfl
  · split
    · rename_i hc; rw [h1] at hc; simp at hc
    · split
      · rename_i hc; rw [h2] at hc; simp at hc
      · split
        · rfl
        · split
          · rfl
          · exact normalizeCols_isOk t _ hv

theorem collabBranch_isOk (t : RawTable) (sel : List String) (f2 : List Row)
    (h1 : t.hasIsCollab = true) (h2 : t.hasIso2c = true) (h3 : t.hasCountry = true)
    (hv : hasValueColumn t = true) :
    isOkRes (collabBranch t sel f2) = true := by
  unfold collabBranch
  split
  · rename_i hc; rw [h1] at hc; simp at hc
  · split
    · rfl
    · split
      · rename_i hc; rw [h2] at hc; simp at hc
      · split
        · rfl
        · split
          · rename_i hc; rw [h3] at hc; simp at hc
          · split
            · rfl
            · exact normalizeCols_isOk t _ hv

theorem isoIn_congr (s1 s2 : List String) (hp : s1.Perm s2) : isoIn s1 = isoIn s2 := by
  funext iso
  cases iso with
  | none => rfl
  | some k =>
    simp only [isoIn]
    rw [Bool.eq_iff_iff]
    simp only [List.contains, List.elem_iff]
    exact hp.mem_iff

theorem has_all_partners_congr (s1 s2 : List String) (hp : s1.Perm s2) :
    has_all_partners s1 = has_all_partners s2 := by
  funext iso
  cases iso with
  | none => rfl
  | some s =>
    simp only [has_all_partners]
    rw [Bool.eq_iff_iff]
    simp only [List.all_eq_true]
    constructor
    · intro h c hc
      exact h c (hp.mem_iff.mpr hc)
    · intro h c hc
      exact h c (hp.mem_iff.mp hc)

theorem nuniqueYears_doubled (l : List (Option Int)) :
    nuniqueYears (l ++ l) = nuniqueYears l := by
  unfold nuniqueYears
  rw [List.filterMap_append]
  rw [← List.card_toFinset, ← List.card_toFinset]
  rw [List.toFinset_append, Finset.union_self]

/-- C9: whenever the display mode is the Collaboration mode and fewer than
two entities are selected, get_display_data returns an empty result,
regardless of the year range, category, region filter and directory. -/
theorem C9_collab_minimum (t : RawTable) (sel : List String) (yr : Int × Int)
    (cat reg : String) (cl : Option (List CountryMeta)) (h : sel.length < 2) :
    get_display_data t sel yr cat "find_collaborations" reg cl = Except.ok [] := by
  unfold get_display_data
  split
  · rfl
  · have hc : ((("find_collaborations" : String) == "find_collaborations") &&
        decide (sel.length < 2)) = true := by simp [h]
    rw [if_pos hc]

/-- C8: two selected-entity sequences that are permutations of one another
give identical get_display_data results for every fixed choice of the
remaining parameters, and they normalize to the same memoization cache
key. -/
theorem C8_order_insensitive (t : RawTable) (s1 s2 : List String) (yr : Int × Int)
    (cat mode reg : String) (cl : Option (List CountryMeta)) (hp : s1.Perm s2) :
    get_display_data t s1 yr cat mode reg cl = get_display_data t s2 yr cat mode reg cl ∧
      cacheKey s1 = cacheKey s2 := by
  have hlen : s1.length = s2.length := hp.length_eq
  have hiso := isoIn_congr s1 s2 hp
  have hall := has_all_partners_congr s1 s2 hp
  have hemp : s1.isEmpty = s2.isEmpty := by
    rw [Bool.eq_iff_iff, List.isEmpty_iff, List.isEmpty_iff]
    constructor
    · intro h
      have h2 := hlen
      rw [h] at h2
      exact List.length_eq_zero.mp h2.symm
    · intro h
      have h2 := hlen
      rw [h] at h2
      exact List.length_eq_zero.mp h2
  constructor
  · unfold get_display_data individualBranch collabBranch indivFiltered collabFiltered
    rw [hlen, hiso, hall, hemp]
  · unfold cacheKey
    exact List.eq_of_perm_of_sorted
      (((List.perm_insertionSort _ s1).trans hp).trans
        (List.perm_insertionSort _ s2).symm)
      (List.sorted_insertionSort _ s1) (List.sorted_insertionSort _ s2)

theorem C8_order_insensitive_witness :
    (["US", "CN"].Perm ["CN", "US"]) ∧
      (get_display_data t7 ["US", "CN"] (1996, 2022) "Organic" "compare_individuals"
          "All" none =
        get_display_data t7 ["CN", "US"] (1996, 2022) "Organic" "compare_individuals"
          "All" none ∧
        cacheKey ["US", "CN"] = cacheKey ["CN", "US"]) :=
  ⟨by decide, C8_order_insensitive t7 ["US", "CN"] ["CN", "US"] (1996, 2022) "Organic"
    "compare_individuals" "All" none (by decide)⟩

theorem C9_collab_minimum_witness :
    (["CN"] : List String).length < 2 ∧
      get_display_data t2 ["CN"] (1996, 2022) "Organic" "find_collaborations" "All"
        none = Except.ok [] :=
  ⟨by decide, C9_collab_minimum t2 ["CN"] (1996, 2022) "Organic" "All" none (by decide)⟩

/-- C1 (amended): when every required column is present - year, chemical,
is_collab, iso2c, the country column in Collaboration mode, and at least one
candidate value column - get_display_data returns normally (no exception
escapes); the unamended claim that a missing column still yields an empty
result is refuted by the counterexample below. -/
theorem C1_no_exception_with_schema (t : RawTable) (sel : List String)
    (yr : Int × Int) (cat mode reg : String) (cl : Option (List CountryMeta))
    (hY : t.hasYear = true) (hC : t.hasChemical = true) (hIC : t.hasIsCollab = true)
    (hI : t.hasIso2c = true) (hCt : mode = "find_collaborations" → t.hasCountry = true)
    (hv : hasValueColumn t = true) :
    isOkRes (get_display_data t sel yr cat mode reg cl) = true := by
  unfold get_display_data
  split
  · rfl
  · split
    · rfl
    · split
      · rename_i hc; rw [hY] at hc; simp at hc
      · split
        · rename_i hc; rw [hC] at hc; simp at hc
        · split
          · rfl
          · split
            · exact individualBranch_isOk t sel reg cl _ hIC hI hv
            · split
              · rename_i hmode
                rw [beq_iff_eq] at hmode
                exact collabBranch_isOk t sel _ hIC hI (hCt hmode) hv
              · rfl

theorem C1_no_exception_with_schema_witness :
    t7.hasYear = true ∧ hasValueColumn t7 = true ∧
      isOkRes (get_display_data t7 ["CN"] (1996, 2022) "Organic" "compare_individuals"
        "All" none) = true :=
  ⟨rfl, rfl, C1_no_exception_with_schema t7 ["CN"] (1996, 2022) "Organic"
    "compare_individuals" "All" none rfl rfl rfl rfl (fun _ => rfl) rfl⟩

/-- C1 counterexample: a non-empty table that is missing every candidate
value column makes get_display_data raise (a KeyError from the dropna on
the never-created total_percentage column), rather than return an empty
result as the claim states. -/
theorem C1_counterexample :
    isOkRes (get_display_data t1 ["CN"] (1996, 2022) "Organic" "compare_individuals"
        "All" none) = false ∧
      get_display_data t1 ["CN"] (1996, 2022) "Organic" "compare_individuals" "All"
        none = Except.error "KeyError: total_percentage" :=
  ⟨rfl, rfl⟩

/-- C2: a collaboration row passes the partner filter exactly when every
selected code is among the dash-split partners of its entity key (subset
semantics, not overlap), and on the P3 scenario with keys CN-US, CN-US-JP
and CN-JP and selection containing CN and US, get_display_data keeps
CN-US and CN-US-JP and excludes CN-JP. -/
theorem C2_partner_subset :
    (∀ (sel : List String) (s : String),
        has_all_partners sel (some s) = true ↔ ∀ c ∈ sel, c ∈ splitOnDash s) ∧
      (∀ (sel : List String) (f2 : List Row) (r0 : Row),
        r0 ∈ collabFiltered sel f2 ↔
          r0 ∈ f2 ∧ r0.is_collab = true ∧ has_all_partners sel r0.iso2c = true) ∧
      (resRows (get_display_data t2 ["CN", "US"] (1996, 2022) "Organic"
        "find_collaborations" "All" none)).map (fun r => r.iso2c) =
        [some "CN-US", some "CN-US-JP"] := by
  refine ⟨?_, ?_, by decide⟩
  · intro sel s
    simp only [has_all_partners, List.all_eq_true]
    constructor
    · intro h c hc
      have h2 := h c hc
      simpa only [List.contains, List.elem_iff] using h2
    · intro h c hc
      have h2 := h c hc
      simpa only [List.contains, List.elem_iff] using h2
  · intro sel f2 r0
    constructor
    · exact mem_collabFiltered sel f2 r0
    · intro hmem
      unfold collabFiltered
      exact List.mem_filter.mpr
        ⟨List.mem_filter.mpr ⟨hmem.1, by rw [hmem.2.1]; rfl⟩, hmem.2.2⟩

/-- C3 (amended): the filter pipeline treats every requested category,
including the literal "All", as a plain equality filter - every returned
row carries exactly the requested category; calculate_top_contributors, in
contrast, applies the literal category filter only when the requested
category is NOT "All" and skips category filtering entirely when it is
"All" (see the counterexample). -/
theorem C3_literal_category (t : RawTable) (sel : List String) (yr : Int × Int)
    (cat mode reg : String) (cl : Option (List CountryMeta)) (ig : Bool)
    (rs : List ResRow)
    (h : get_display_data t sel yr cat mode reg cl = Except.ok rs) :
    (∀ r ∈ rs, r.chemical = some cat) ∧
      (cat ≠ "All" → ∀ r0 ∈ topContribQuery t yr cat reg ig,
        r0.chemical = some cat) := by
  constructor
  · intro r hr
    rcases mem_of_get_display_data t sel yr cat mode reg cl rs r h hr with
      ⟨r0, _, hcat, hcase⟩
    rcases hcase with ⟨_, _, _, _, he⟩ | ⟨_, _, _, he⟩
    · rw [he, show (normTot t (mergeRow t cl r0)).chemical =
        (mergeRow t cl r0).chemical from rfl, mergeRow_chemical]
      exact hcat
    · rw [he]
      exact hcat
  · intro hne r0 hr0
    have hcatb : (cat != "All") = true := bne_iff_ne.mpr hne
    simp only [topContribQuery] at hr0
    rw [if_pos hcatb] at hr0
    split at hr0
    · rcases List.mem_filter.mp hr0 with ⟨h1, _⟩
      rcases List.mem_filter.mp h1 with ⟨_, h2⟩
      exact beq_iff_eq.mp h2
    · rcases List.mem_filter.mp hr0 with ⟨_, h2⟩
      exact beq_iff_eq.mp h2

/-- C3 counterexample: with category "All", calculate_top_contributors
keeps a solo row whose category is "Organic" (the category filter is
skipped), so "All" acts as a wildcard there, refuting the claim that the
top-contributors aggregation keeps only rows whose category literally
equals the parameter. -/
theorem C3_counterexample :
    isOkRes (calculate_top_contributors t3 (1996, 2022) "All" "All" (some cl3) 10
        false) = true ∧
      (resRows (calculate_top_contributors t3 (1996, 2022) "All" "All" (some cl3) 10
        false)).map (fun g => (g.rank, g.iso2c, g.country)) =
        [(1, "CN", some "China")] ∧
      t3.rows.map (fun r => r.chemical) = [some "Organic"] :=
  ⟨rfl, by decide, by decide⟩

def r7 : ResRow :=
  { year := some 2000, chemical := some "Organic", is_collab := false, iso2c := some "CN"
    region := some "Asia", country := some "China", cc := some "#f00"
    percentage := some 5, value := some 3, value_raw := none, percentage_x := none
    plot_group := some "China", plot_color := some "#f00"
    partners := [], collab_size := 0, collab_type := "", plot_color_group := none
    total_percentage := some 5 }

theorem C3_literal_category_witness :
    (∀ r ∈ [r7], r.chemical = some "Organic") ∧
      ("Organic" ≠ "All" → ∀ r0 ∈ topContribQuery t7 (1996, 2022) "Organic" "All" false,
        r0.chemical = some "Organic") :=
  C3_literal_category t7 ["CN"] (1996, 2022) "Organic" "compare_individuals" "All"
    none false [r7] rfl

/-- C4 (amended): in Collaboration mode every returned row has plot_group
equal to the country cell of the row (the display label column), which need not
equal the dash-joined entity key; the unamended claim that plot_group
equals the entity key is refuted by the counterexample below. -/
theorem C4_plot_group_from_country (t : RawTable) (sel : List String) (yr : Int × Int)
    (cat reg : String) (cl : Option (List CountryMeta)) (rs : List ResRow) (r : ResRow)
    (h : get_display_data t sel yr cat "find_collaborations" reg cl = Except.ok rs)
    (hr : r ∈ rs) : r.plot_group = r.country := by
  rcases mem_of_get_display_data t sel yr cat _ reg cl rs r h hr with ⟨r0, _, _, hcase⟩
  rcases hcase with ⟨hm, _⟩ | ⟨_, _, _, he⟩
  · rcases hm with hm | hm
    · exact absurd hm (by decide)
    · exact absurd hm (by decide)
  · rw [he]
    rfl

/-- C4 counterexample: a collaboration row whose country cell is the label
"China-US Collaboration" while its entity key is "CN-US" is returned with
plot_group equal to the label, not the key. -/
theorem C4_counterexample :
    (resRows (get_display_data t4 ["CN", "US"] (1996, 2022) "Organic"
      "find_collaborations" "All" none)).map (fun r => (r.plot_group, r.iso2c)) =
        [(some "China-US Collaboration", some "CN-US")] ∧
      (some "China-US Collaboration" : Option String) ≠ some "CN-US" :=
  ⟨by decide, by decide⟩

def r4 : ResRow :=
  { year := some 2000, chemical := some "Organic", is_collab := true
    iso2c := some "CN-US", region := none, country := some "China-US Collaboration"
    cc := none, percentage := some 1, value := none, value_raw := none
    percentage_x := none
    plot_group := some "China-US Collaboration", plot_color := none
    partners := ["CN", "US"], collab_size := 2, collab_type := "Bilateral"
    plot_color_group := some "Bilateral", total_percentage := some 1 }

theorem C4_plot_group_from_country_witness : r4.plot_group = r4.country :=
  C4_plot_group_from_country t4 ["CN", "US"] (1996, 2022) "Organic" "All" none [r4] r4
    rfl (List.mem_singleton.mpr rfl)

/-- C7: total_percentage of every returned row is filled from the first
PRESENT column in the fixed probe order percentage, value, value_raw,
percentage_x: from percentage whenever it is present, from value when
percentage is absent, from value_raw when both are absent, and from
percentage_x when the first three are absent - so in particular percentage
beats value and value_raw beats percentage_x on any table exposing both. -/
theorem C7_value_priority (t : RawTable) (sel : List String) (yr : Int × Int)
    (cat mode reg : String) (cl : Option (List CountryMeta)) (rs : List ResRow)
    (r : ResRow)
    (h : get_display_data t sel yr cat mode reg cl = Except.ok rs) (hr : r ∈ rs) :
    (t.hasPercentage = true → r.total_percentage = r.percentage) ∧
      (t.hasPercentage = false → t.hasValue = true → r.total_percentage = r.value) ∧
      (t.hasPercentage = false → t.hasValue = false → t.hasValueRaw = true →
        r.total_percentage = r.value_raw) ∧
      (t.hasPercentage = false → t.hasValue = false → t.hasValueRaw = false →
        r.total_percentage = r.percentage_x) := by
  rcases mem_of_get_display_data t sel yr cat mode reg cl rs r h hr with
    ⟨r0, _, _, hcase⟩
  have hform : ∃ x, r = normTot t x := by
    rcases hcase with ⟨_, _, _, _, he⟩ | ⟨_, _, _, he⟩
    · exact ⟨_, he⟩
    · exact ⟨_, he⟩
  rcases hform with ⟨x, he⟩
  subst he
  refine ⟨?_, ?_, ?_, ?_⟩
  · intro hp
    show pickValue t x = x.percentage
    unfold pickValue
    rw [if_pos hp]
  · intro hp hv
    have hp2 : ¬(t.hasPercentage = true) := by rw [hp]; simp
    show pickValue t x = x.value
    unfold pickValue
    rw [if_neg hp2, if_pos hv]
  · intro hp hv hvr
    have hp2 : ¬(t.hasPercentage = true) := by rw [hp]; simp
    have hv2 : ¬(t.hasValue = true) := by rw [hv]; simp
    show pickValue t x = x.value_raw
    unfold pickValue
    rw [if_neg hp2, if_neg hv2, if_pos hvr]
  · intro hp hv hvr
    have hp2 : ¬(t.hasPercentage = true) := by rw [hp]; simp
    have hv2 : ¬(t.hasValue = true) := by rw [hv]; simp
    have hvr2 : ¬(t.hasValueRaw = true) := by rw [hvr]; simp
    show pickValue t x = x.percentage_x
    unfold pickValue
    rw [if_neg hp2, if_neg hv2, if_neg hvr2]

/-- A table exposing only the value_raw and percentage_x candidate columns,
with differing contents (7 versus 9) in its single solo row. -/
def t7b : RawTable :=
  { hasYear := true, hasChemical := true, hasIsCollab := true, hasIso2c := true
    hasRegion := true, hasCountry := true, hasCc := true
    hasPercentage := false, hasValue := false, hasValueRaw := true
    hasPercentageX := true
    rows := [{ year := some 2000, chemical := some "Organic", is_collab := false
               iso2c := some "CN", region := some "Asia", country := some "China"
               cc := some "#f00", percentage := none, value := none
               value_raw := some 7, percentage_x := some 9 }] }

def r7b : ResRow :=
  { year := some 2000, chemical := some "Organic", is_collab := false, iso2c := some "CN"
    region := some "Asia", country := some "China", cc := some "#f00"
    percentage := none, value := none, value_raw := some 7, percentage_x := some 9
    plot_group := some "China", plot_color := some "#f00"
    partners := [], collab_size := 0, collab_type := "", plot_color_group := none
    total_percentage := some 7 }

theorem C7_value_priority_witness :
    (t7.hasPercentage = true ∧ t7.hasValue = true ∧
      r7.percentage = some 5 ∧ r7.value = some 3 ∧
      r7.total_percentage = r7.percentage) ∧
    (t7b.hasPercentage = false ∧ t7b.hasValue = false ∧ t7b.hasValueRaw = true ∧
      t7b.hasPercentageX = true ∧
      r7b.value_raw = some 7 ∧ r7b.percentage_x = some 9 ∧
      r7b.total_percentage = r7b.value_raw) :=
  ⟨⟨rfl, rfl, rfl, rfl,
    (C7_value_priority t7 ["CN"] (1996, 2022) "Organic" "compare_individuals" "All"
      none [r7] r7 rfl (List.mem_singleton.mpr rfl)).1 rfl⟩,
   ⟨rfl, rfl, rfl, rfl, rfl, rfl,
    (C7_value_priority t7b ["CN"] (1996, 2022) "Organic" "compare_individuals" "All"
      none [r7b] r7b rfl (List.mem_singleton.mpr rfl)).2.2.1 rfl rfl rfl⟩⟩

/-- C10 (amended): with an active region filter in Individual mode the rows
kept by the region restriction are those whose RAW-table region cell equals
the filter: every returned row originates from a raw row with that raw
region, whatever the joined directory says; the unamended claim that the
directory region decides membership is refuted by the counterexample
below. -/
theorem C10_region_from_raw_column (t : RawTable) (sel : List String) (yr : Int × Int)
    (cat reg : String) (cl : Option (List CountryMeta)) (rs : List ResRow) (r : ResRow)
    (hreg : reg ≠ "All") (hhas : t.hasRegion = true)
    (h : get_display_data t sel yr cat "compare_individuals" reg cl = Except.ok rs)
    (hr : r ∈ rs) :
    ∃ r0, r0 ∈ t.rows ∧ r0.region = some reg ∧ r0.iso2c = r.iso2c ∧
      r0.year = r.year ∧ r0.chemical = some cat := by
  rcases mem_of_get_display_data t sel yr cat _ reg cl rs r h hr with
    ⟨r0, hrow, hcat, hcase⟩
  rcases hcase with ⟨_, _, _, hregion, he⟩ | ⟨hm, _⟩
  · refine ⟨r0, hrow, ?_, ?_, ?_, hcat⟩
    · apply hregion
      rw [Bool.and_eq_true]
      exact ⟨bne_iff_ne.mpr hreg, hhas⟩
    · rw [he, show (normTot t (mergeRow t cl r0)).iso2c =
        (mergeRow t cl r0).iso2c from rfl, mergeRow_iso2c]
    · rw [he, show (normTot t (mergeRow t cl r0)).year =
        (mergeRow t cl r0).year from rfl, mergeRow_year]
  · exact absurd hm (by decide)

/-- C10 counterexample: a row whose raw region is "Asia" but whose joined
directory region is "Europe" is DROPPED by the code under region filter
"Europe" (empty result), while the spec reading of the step - restrict by
the joined directory region - keeps it; so membership is decided by the raw
column, not the directory. -/
theorem C10_counterexample :
    get_display_data t10 ["CN"] (2000, 2000) "Organic" "compare_individuals" "Europe"
        (some cl10) = Except.ok [] ∧
      (resRows (get_display_data_dirSpec t10 ["CN"] (2000, 2000) "Organic"
        "compare_individuals" "Europe" (some cl10))).length = 1 ∧
      dirRegion (some cl10) (mkSolo "CN" "Organic" 2000 5 "Asia" "China" "#f00") =
        some "Europe" :=
  ⟨rfl, rfl, rfl⟩

def r10 : ResRow :=
  { year := some 2000, chemical := some "Organic", is_collab := false, iso2c := some "CN"
    region := some "Europe", country := some "China", cc := some "#f00"
    percentage := some 5, value := none, value_raw := none, percentage_x := none
    plot_group := some "China", plot_color := some "#f00"
    partners := [], collab_size := 0, collab_type := "", plot_color_group := none
    total_percentage := some 5 }

theorem C10_region_from_raw_column_witness :
    ∃ r0, r0 ∈ t10.rows ∧ r0.region = some "Asia" ∧ r0.iso2c = r10.iso2c ∧
      r0.year = r10.year ∧ r0.chemical = some "Organic" :=
  C10_region_from_raw_column t10 ["CN"] (2000, 2000) "Organic" "Asia" (some cl10)
    [r10] r10 (by decide) rfl rfl (List.mem_singleton.mpr rfl)

/-- C5: on the duplicate-year data of P6 (two identical rows for year 2000
and one for 2001) the summary served by the app, create_summary_dataframe,
reports 2 distinct years, while the legacy create_summary_table labels a
plain row count as Years Present and reports 3; in general the nunique
aggregation is insensitive to duplicating the rows of a group. -/
theorem C5_years_present_distinct :
    (create_summary_dataframe_indiv c5data).map (fun g => g.years_present) = [2] ∧
      (create_summary_table_indiv c5data).map (fun g => g.years_present) = [3] ∧
      nuniqueYears (c5data.map (fun r => r.year)) = 2 ∧
      (∀ l : List (Option Int), nuniqueYears (l ++ l) = nuniqueYears l) :=
  ⟨rfl, rfl, rfl, nuniqueYears_doubled⟩

/-- C6: for a solo record with a missing region, the country_list built
inside load_country_data keeps the region missing (the assignment at
functions.py line 41 is a self-assignment), while the app-side
load_country_list fills the literal "Other"; the claim holds only for the
latter. -/
theorem C6_region_default :
    (load_country_data_country_list [c6row]).map (fun r => r.region) = [none] ∧
      (load_country_list [c6row]).map (fun r => r.region) = [some "Other"] :=
  ⟨rfl, rfl⟩
